import Mathlib

/-!
A verification development for the EWFlow windowing and buffering core.

The definitions below are a shallow embedding of the Python sources:

* `wyrm/core/window/wyrm.py` (`WindowWyrm`): per-instrument window tracking,
  gap handling and window assembly (`_process_windows`,
  `_branch2instrumentwindow`, `pulse`);
* `wyrm/wyrms/windwyrm.py` (`WindWyrm`): the legacy window builder
  (`_branch2instwindow`);
* `wyrm/core/io.py` (`Wave2PyWyrm`): staleness counting and eviction
  (`_add_msg_to_queue_dict`, `_update_staleness`);
* `ayahos/wyrms/wyrm.py` (`Wyrm`): the base pulse loop (`pulse`,
  `_measure_input`, `_continue_iteration`, `_get_obj_from_input`,
  `_capture_unit_out`).

Modelling conventions:
* absolute timestamps and second quantities (`UTCDateTime`, floats) are
  rationals `ℚ`;
* Python dicts are association lists keyed by `Nat` (instrument ids) or
  `Char` (component codes); insertion appends at the right end, matching
  Python dict insertion order;
* a dict key that a template never defines is an `Option` field holding
  `none`: reading it raises `PyErr.keyError`, as `dict[...]` does in Python;
* Python runtime errors surface as `PyErr` values in the result records; a
  raised error aborts the enclosing loop, as an uncaught exception does;
* the external `TraceBuffer.get_trimmed_valid_fraction` scoring routine is
  not part of these sources, so each buffer carries the fraction it would
  return for the candidate window as the field `validFrac`; the claims under
  study only compare that value against the configured thresholds.
-/

/-- Python runtime errors the modelled code can raise: `typeError` for a
comparison with `None` or an item assignment into a tuple, `keyError` for a
missing dict key, `attributeError` for reading an attribute that no code
ever assigned, `runtimeError` for removing a dict entry while iterating over
the dict's keys, and `debugHalt` for `breakpoint()` stopping execution in
debug mode. -/
inductive PyErr where
  | typeError
  | keyError
  | attributeError
  | runtimeError
  | debugHalt
deriving DecidableEq

/-- Association-list lookup with `Nat` keys, modelling Python dict access;
returns the value of the first matching key. -/
def alookup {β : Type} (k : Nat) : List (Nat × β) → Option β
  | [] => none
  | (k0, v) :: rest => if k0 = k then some v else alookup k rest

/-- Association-list update of the first matching key, modelling assignment
to an existing Python dict entry (position preserved). -/
def aupdate {β : Type} (k : Nat) (v : β) : List (Nat × β) → List (Nat × β)
  | [] => []
  | (k0, v0) :: rest => if k0 = k then (k, v) :: rest else (k0, v0) :: aupdate k v rest

/-! ### Base pulse loop: `ayahos/wyrms/wyrm.py`, `Wyrm.pulse`

The deque of input objects is a `List Nat` popped at the head (`popleft`);
`self.output` is a list appended at the tail (`deque.append`). Items are
abstract, so `Nat` stands for any payload. `_unit_process` is the identity,
and `_capture_unit_out` always returns `True`, exactly as in the base class.
-/

/-- One iteration state of `Wyrm.pulse` (source lines 104-128): the loop
runs while `fuel` (remaining `range(max_pulse_size)` iterations) is positive
and `_continue_iteration` holds, i.e. the input deque is non-empty and
`iterno + 1 <= input_measure`. Each iteration pops the head of the input,
appends it to the output and increments `nproc`. -/
def wyrmPulseGo (inputMeasure : Nat) : Nat → Nat → List Nat → List Nat → Nat →
    List Nat × List Nat × Nat
  | 0, _, input, output, nproc => (input, output, nproc)
  | fuel + 1, iterno, input, output, nproc =>
    if 0 < input.length ∧ iterno + 1 ≤ inputMeasure then
      match input with
      | [] => (input, output, nproc)
      | obj :: rest =>
        wyrmPulseGo inputMeasure fuel (iterno + 1) rest (output ++ [obj]) (nproc + 1)
    else (input, output, nproc)

/-- Model of `Wyrm.pulse` for a deque input: `_measure_input` is the length
of the input at call time, and the loop runs up to `maxPulseSize` times.
Returns (remaining input, output, nproc), where the output component is the
aliased `self.output` after the call. -/
def wyrmPulse (maxPulseSize : Nat) (input output0 : List Nat) : List Nat × List Nat × Nat :=
  wyrmPulseGo input.length maxPulseSize 0 input output0 0

/-! ### Staleness bookkeeping: `wyrm/core/io.py`, `Wave2PyWyrm`

A `queue_dict` entry is the tuple `(deque, staleness_index)` (source line
327); the deque receives new segments with `appendleft` (so the head is
newest and the last element is oldest) and eviction uses `pop()` from the
right end. Buffered segments are abstract `Nat` payloads. Because the entry
is a tuple, the in-place assignments `queue_dict[code][1] = 0` (line 337)
and `queue_dict[_k][1] += 1` (line 366) raise `TypeError` (tuples do not
support item assignment), and `queue_dict.pop(_k)` inside
`for _k in self.queue_dict.keys()` (lines 351, 363) makes the next iterator
step raise RuntimeError. The definitions below model these crashes: each
operation returns the store as the aborted loop leaves it, together with
the error raised, if any.
-/

/-- One `queue_dict` entry of `Wave2PyWyrm`: the buffered segment deque
(newest first) and the staleness counter. -/
structure QEntry where
  queue : List Nat
  staleness : Nat
deriving DecidableEq

/-- Model of `Wave2PyWyrm._add_msg_to_queue_dict` (source lines 317-342):
a new code gets a fresh `(deque([msg]), 0)` tuple entry (line 327) — this
path works. For a known code, the `appendleft` at line 335 mutates the
inner deque (it in fact appends a deque-wrapped message; payloads are
abstract here), but the reset `self.queue_dict[wavemsg.code][1] = 0` at
line 337 then raises `TypeError` on the tuple entry: the staleness counter
is never reset and the exception propagates out of `pulse`. -/
def addMsgToQueueDict (qd : List (Nat × QEntry)) (code msg : Nat) :
    List (Nat × QEntry) × Option PyErr :=
  match alookup code qd with
  | none => (qd ++ [(code, ⟨[msg], 0⟩)], none)
  | some e => (aupdate code ⟨msg :: e.queue, e.staleness⟩ qd, some PyErr.typeError)

/-- The loop of `Wave2PyWyrm._update_staleness` (source lines 344-366) over
the not-yet-visited entries, carrying the visited prefix. Entries whose code
is in `updated_codes` are skipped (line 353). An untouched entry at or past
`max_staleness` with buffered data has its oldest segment popped (line 360;
the inner deque is mutable, so this branch works and never touches the
counter); with no data, `queue_dict.pop(_k)` (line 363) removes the entry
and the next step of the `keys()` iterator raises RuntimeError (CPython
checks the dict size before exhaustion). An untouched entry below the
ceiling hits `queue_dict[_k][1] += 1` (line 366), which raises `TypeError`
on the tuple, leaving that entry and everything after it untouched. -/
def updateStalenessGo (maxStaleness : Nat) (updatedCodes : List Nat) :
    List (Nat × QEntry) → List (Nat × QEntry) → List (Nat × QEntry) × Option PyErr
  | [], acc => (acc, none)
  | p :: rest, acc =>
    if p.1 ∈ updatedCodes then
      updateStalenessGo maxStaleness updatedCodes rest (acc ++ [p])
    else if maxStaleness ≤ p.2.staleness then
      if 0 < p.2.queue.length then
        updateStalenessGo maxStaleness updatedCodes rest
          (acc ++ [(p.1, ⟨p.2.queue.dropLast, p.2.staleness⟩)])
      else (acc ++ rest, some PyErr.runtimeError)
    else (acc ++ p :: rest, some PyErr.typeError)

/-- Model of `Wave2PyWyrm._update_staleness`: run the loop from an empty
visited prefix, returning the store as the loop leaves it and the error
that aborted it, if any. -/
def updateStaleness (maxStaleness : Nat) (updatedCodes : List Nat)
    (qd : List (Nat × QEntry)) : List (Nat × QEntry) × Option PyErr :=
  updateStalenessGo maxStaleness updatedCodes qd []

/-! ### Windowing: `wyrm/core/window/wyrm.py`, `WindowWyrm` -/

/-- One buffered channel of an instrument branch (a `TraceBuffer`): its
sample count `npts` (`len(buffer)`), its `stats.starttime` and
`stats.endtime`, and `validFrac`, the value `get_trimmed_valid_fraction`
returns for the candidate window of the current sweep (the scoring routine
itself lives outside these sources). -/
structure TraceBuff where
  npts : Nat
  starttime : ℚ
  endtime : ℚ
  validFrac : ℚ
deriving DecidableEq

/-- An instrument branch: component code to buffer, in dict order. -/
abbrev Branch := List (Char × TraceBuff)

/-- A `window_tracker` entry. `WindowWyrm._index_template` (source lines
159-162) defines exactly the keys `last_starttime` and `next_starttime`,
both `None`; the `next_index` key that `_process_windows` reads and updates
(lines 572, 582, 595) is never present in the template, so it is an
`Option ℤ` that starts as `none` (reading it raises `KeyError`). -/
structure TrackerEntry where
  lastStarttime : Option ℚ
  nextStarttime : Option ℚ
  nextIndex : Option ℤ
deriving DecidableEq

/-- `WindowWyrm._index_template`: `last_starttime = None`,
`next_starttime = None`, and no `next_index` key. -/
def indexTemplate : TrackerEntry := ⟨none, none, none⟩

/-- `WindowWyrm.code_map`: component codes aliased to the Z, N and E roles. -/
structure CodeMap where
  z : List Char
  n : List Char
  e : List Char
deriving DecidableEq

/-- `WindowWyrm.completeness` (`self.tcf`): per-role valid-fraction
thresholds. -/
structure Completeness where
  z : ℚ
  n : ℚ
  e : ℚ
deriving DecidableEq

/-- The `WindowWyrm` configuration the modelled methods consult:
code map, thresholds, `self._advance_sec` and `self.debug`. -/
structure WindowConfig where
  codeMap : CodeMap
  completeness : Completeness
  advanceSec : ℚ
  debug : Bool
deriving DecidableEq

/-- A trimmed trace placed in a window slot; `src` records which component
code of the branch it was cut from. -/
structure CompTrace where
  src : Char
deriving DecidableEq

/-- The `window_inputs` accumulator of the window builders: the Z, N and E
slots of the window being assembled. -/
structure WindowInputs where
  z : Option CompTrace
  n : Option CompTrace
  e : Option CompTrace
deriving DecidableEq

/-- Lookup of a component code in a branch (`_branch[_c]`). -/
def branchGet (c : Char) : Branch → Option TraceBuff
  | [] => none
  | (k, b) :: rest => if k = c then some b else branchGet c rest

/-- The vertical-buffer search loop used both for seeding (source lines
500-511) and for reading the data bounds (lines 519-525): scan the approved
Z codes in order and return the first matching branch buffer that has data;
a matching buffer with no data does not stop the scan. -/
def findZBuff (zcodes : List Char) (branch : Branch) : Option TraceBuff :=
  match zcodes with
  | [] => none
  | c :: rest =>
    match branchGet c branch with
    | some b => if 0 < b.npts then some b else findZBuff rest branch
    | none => findZBuff rest branch

/-- The component scan of `WindowWyrm._branch2instrumentwindow` (source
lines 369-417): for each branch entry, the first matching role of Z, N, E is
scored; a buffer meeting its role threshold places its trimmed trace in that
role's slot of `window_inputs`. The thresholds here are the `completeness`
values the code intends; the source reads them through `self.tcf` (lines
377, 392, 407), an attribute `__init__` never assigns (it assigns
`completeness`), so in the running class even these lookups would raise
AttributeError — `attemptWindowActual` below carries that crash; this
definition transcribes the scan text. -/
def scanBranch (cfg : WindowConfig) : Branch → WindowInputs → WindowInputs
  | [], acc => acc
  | (k, b) :: rest, acc =>
    scanBranch cfg rest
      (if k ∈ cfg.codeMap.z then
        (if cfg.completeness.z ≤ b.validFrac then { acc with z := some ⟨k⟩ } else acc)
       else if k ∈ cfg.codeMap.n then
        (if cfg.completeness.n ≤ b.validFrac then { acc with n := some ⟨k⟩ } else acc)
       else if k ∈ cfg.codeMap.e then
        (if cfg.completeness.e ≤ b.validFrac then { acc with e := some ⟨k⟩ } else acc)
       else acc)

/-- The scan outcome of `WindowWyrm._branch2instrumentwindow` (source lines
353-424): scan the branch into `window_inputs`; if the Z slot was filled, a
window is produced from the inputs, otherwise the method is meant to return
`None`. The real method never gets this far: its first statement
`window_inputs = self.windowing_attr.copy()` (line 355) dereferences
`self.windowing_attr`, which `__init__` never assigns (nor
`self._blinding_sec`, line 322), raising AttributeError before any channel
is scored — `attemptWindowActual` below models that. -/
def branch2instrumentwindow (cfg : WindowConfig) (branch : Branch) : Option WindowInputs :=
  if (scanBranch cfg branch ⟨none, none, none⟩).z.isSome then
    some (scanBranch cfg branch ⟨none, none, none⟩)
  else none

/-- Configuration of the legacy `WindWyrm`: Z/N/E code aliases and the
vertical (`_zvft`) and horizontal (`_hvft`) thresholds. -/
structure WWConfig where
  zCodes : List Char
  nCodes : List Char
  eCodes : List Char
  zvft : ℚ
  hvft : ℚ
deriving DecidableEq

/-- The component scan of the legacy `WindWyrm._branch2instwindow` (source
lines 174-209). Note the faithful transcription of lines 206-209: a code in
`self.E_codes` that meets the horizontal threshold is stored with
`window_inputs.update({"N": _tr})`, i.e. into the N slot. (In the running
class the scan is unreachable: `window_ts` at line 165 is an undefined name,
and the def line's `index_branch=self._template.copy()` default is itself a
NameError at class-body evaluation, so `windwyrm.py` cannot even be
imported; this definition transcribes the scan text, which is what claim C9
compares.) -/
def scanBranchLegacy (cfg : WWConfig) : Branch → WindowInputs → WindowInputs
  | [], acc => acc
  | (k, b) :: rest, acc =>
    scanBranchLegacy cfg rest
      (if k ∈ cfg.zCodes then
        (if cfg.zvft ≤ b.validFrac then { acc with z := some ⟨k⟩ } else acc)
       else if k ∈ cfg.nCodes ++ cfg.eCodes then
        (if cfg.hvft ≤ b.validFrac then
          (if k ∈ cfg.nCodes then { acc with n := some ⟨k⟩ }
           else if k ∈ cfg.eCodes then { acc with n := some ⟨k⟩ }
           else acc)
         else acc)
       else acc)

/-- The scan outcome of the legacy `WindWyrm._branch2instwindow` (source
lines 154-214): as for the reimplementation, a window is produced exactly
when the Z slot was filled. The same NameErrors noted at
`scanBranchLegacy` apply to the surrounding method. -/
def branch2instwindow (cfg : WWConfig) (branch : Branch) : Option WindowInputs :=
  if (scanBranchLegacy cfg branch ⟨none, none, none⟩).z.isSome then
    some (scanBranchLegacy cfg branch ⟨none, none, none⟩)
  else none

/-- The local `_data_max_length` of `WindowWyrm._process_windows`: set to
`None` at source line 518 and never reassigned — the only assignment, line
524, is commented out in the source. -/
def dataMaxLength : Option ℚ := none

/-- The gap decision of `_process_windows` (source lines 526-572) for a
seeded tracker time `ts` against vertical data bounds `[dts, dte]`. -/
inductive GapAction where
  | proceed
  | jump (nadv : ℤ)
  | raiseErr (e : PyErr)
deriving DecidableEq

/-- Faithful transcription of the `elif` chain at source lines 528-572:
inside the data span, proceed. Ahead of the data end, proceed when the gap
is under two advances; otherwise in debug mode `breakpoint()` halts, and in
non-debug mode the `RuntimeError(...)` at line 546 is constructed but never
raised, so execution proceeds to the window attempt. Behind the data start,
the comparison `gap_dt < _data_max_length` (line 561) compares a float with
`None` and raises `TypeError`; the integer-advance jump of lines 564-572 is
transcribed in the `some` branch of `dataMaxLength`, which is never reached.
When no branch matches (`ts = dte`), control falls through and proceeds. -/
def evalGap (cfg : WindowConfig) (ts dts dte : ℚ) : GapAction :=
  if dts ≤ ts ∧ ts < dte then GapAction.proceed
  else if dte < ts then
    (if ts - dte < 2 * cfg.advanceSec then GapAction.proceed
     else if cfg.debug then GapAction.raiseErr PyErr.debugHalt
     else GapAction.proceed)
  else if ts < dts then
    (match dataMaxLength with
     | none => GapAction.raiseErr PyErr.typeError
     | some maxLen =>
        if dts - ts < maxLen then GapAction.proceed
        else GapAction.jump (Int.floor ((dts - ts) / cfg.advanceSec)))
  else GapAction.proceed

/-- Result of `_process_windows` on one branch: the tracker entry after the
iteration, whether a window was emitted (appended to the queue), whether the
window-extraction attempt at source lines 575-583 was reached, and the
Python error raised, if any. -/
structure BranchResult where
  entry : TrackerEntry
  emitted : Bool
  attempted : Bool
  error : Option PyErr
deriving DecidableEq

/-- The window attempt of `_process_windows` (source lines 575-599) in the
idealized reading used by the claims whose verdicts do not depend on the
attempt completing: the call name (`_branch2instwindow`, which `WindowWyrm`
does not define) is taken to resolve to `_branch2instrumentwindow`, and that
builder's attribute preamble is collapsed. The `index` argument still reads
`self.window_tracker[_k0]['next_index']` (line 582), raising `KeyError` for
entries built from `_index_template`. On a produced window the entry
advances `next_starttime` by `_advance_sec` and `next_index` by 1 (lines
587-595); on `None` the entry is left unchanged. `attemptWindowActual`
below models what the attempt actually does. -/
def attemptWindow (cfg : WindowConfig) (branch : Branch) (entry : TrackerEntry) : BranchResult :=
  match entry.nextIndex with
  | none => ⟨entry, false, true, some PyErr.keyError⟩
  | some i =>
    match entry.nextStarttime with
    | none => ⟨entry, false, true, some PyErr.keyError⟩
    | some ts =>
      match branch2instrumentwindow cfg branch with
      | some _ =>
        ⟨⟨entry.lastStarttime, some (ts + cfg.advanceSec), some (i + 1)⟩, true, true, none⟩
      | none => ⟨entry, false, true, none⟩

/-- The seeding step of `_process_windows` (source lines 496-511): an entry
whose `next_starttime` is still the template `None` is seeded from the
starttime of the first approved vertical buffer holding data. -/
def seedEntry (cfg : WindowConfig) (branch : Branch) (entry : TrackerEntry) : TrackerEntry :=
  match entry.nextStarttime with
  | some _ => entry
  | none =>
    match findZBuff cfg.codeMap.z branch with
    | some b => { entry with nextStarttime := some b.starttime }
    | none => entry

/-- The per-branch body of `WindowWyrm._process_windows` (source lines
486-599): seed if needed; if the entry still has no `next_starttime`, do
nothing. Otherwise re-read the vertical data bounds (a missing vertical
leaves `_data_ts = None` and line 528 then raises `TypeError`), run the gap
decision, and on proceed (or after the never-reached jump) run the window
attempt. -/
def processBranch (cfg : WindowConfig) (branch : Branch) (entry0 : TrackerEntry) : BranchResult :=
  match seedEntry cfg branch entry0 with
  | ⟨ls, none, ni⟩ => ⟨⟨ls, none, ni⟩, false, false, none⟩
  | ⟨ls, some ts, ni⟩ =>
    match findZBuff cfg.codeMap.z branch with
    | none => ⟨⟨ls, some ts, ni⟩, false, false, some PyErr.typeError⟩
    | some b =>
      match evalGap cfg ts b.starttime b.endtime with
      | GapAction.raiseErr e => ⟨⟨ls, some ts, ni⟩, false, false, some e⟩
      | GapAction.jump nadv =>
        match ni with
        | none => ⟨⟨ls, some (ts + nadv * cfg.advanceSec), none⟩, false, false, some PyErr.keyError⟩
        | some i =>
          attemptWindow cfg branch ⟨ls, some (ts + nadv * cfg.advanceSec), some (i + nadv)⟩
      | GapAction.proceed => attemptWindow cfg branch ⟨ls, some ts, ni⟩

/-- The window-builder call of `_process_windows` (source lines 575-583) as
it actually executes. Strict Python already fails on the callable name:
`_branch2instwindow` does not exist on `WindowWyrm` (AttributeError). Under
the argument-first reading used for `attemptWindow`, the `index` argument
reads the missing `next_index` key and raises `KeyError`; if the entry does
carry an index, the call enters `_branch2instrumentwindow`, whose first
statement `window_inputs = self.windowing_attr.copy()` (line 355)
dereferences `self.windowing_attr` — never assigned by `__init__`, nor are
`self._blinding_sec` (line 322) and `self.tcf` (lines 377, 392, 407) — and
raises AttributeError before any channel is scored. No call returns `None`
and no window is ever produced; the tracker entry is untouched and the
exception aborts the pulse. -/
def attemptWindowActual (entry : TrackerEntry) : BranchResult :=
  match entry.nextIndex with
  | none => ⟨entry, false, true, some PyErr.keyError⟩
  | some _ => ⟨entry, false, true, some PyErr.attributeError⟩

/-- The per-branch body of `WindowWyrm._process_windows` with the window
attempt modelled by `attemptWindowActual`: identical control flow to
`processBranch`, but the attempt raises as the source does instead of
scoring channels and returning a window or `None`. -/
def processBranchActual (cfg : WindowConfig) (branch : Branch) (entry0 : TrackerEntry) :
    BranchResult :=
  match seedEntry cfg branch entry0 with
  | ⟨ls, none, ni⟩ => ⟨⟨ls, none, ni⟩, false, false, none⟩
  | ⟨ls, some ts, ni⟩ =>
    match findZBuff cfg.codeMap.z branch with
    | none => ⟨⟨ls, some ts, ni⟩, false, false, some PyErr.typeError⟩
    | some b =>
      match evalGap cfg ts b.starttime b.endtime with
      | GapAction.raiseErr e => ⟨⟨ls, some ts, ni⟩, false, false, some e⟩
      | GapAction.jump nadv =>
        match ni with
        | none => ⟨⟨ls, some (ts + nadv * cfg.advanceSec), none⟩, false, false, some PyErr.keyError⟩
        | some i =>
          attemptWindowActual ⟨ls, some (ts + nadv * cfg.advanceSec), some (i + nadv)⟩
      | GapAction.proceed => attemptWindowActual ⟨ls, some ts, ni⟩

/-- Result of one sweep of `_process_windows` over the whole store: the
tracker map after the sweep, the number `nnew` of windows emitted, the
number of window-extraction attempts made, and the error that aborted the
sweep, if any. -/
structure SweepResult where
  tracker : List (Nat × TrackerEntry)
  nnew : Nat
  attempts : Nat
  error : Option PyErr
deriving DecidableEq

/-- Tracker map after the membership check of source lines 488-494: a key
absent from `window_tracker` gets a fresh copy of `_index_template`. -/
def trackerWithKey (k : Nat) (tm : List (Nat × TrackerEntry)) : List (Nat × TrackerEntry) :=
  match alookup k tm with
  | some _ => tm
  | none => tm ++ [(k, indexTemplate)]

/-- The sweep loop of `WindowWyrm._process_windows` (source lines 484-601):
iterate the store branches in order, processing each against its tracker
entry; an uncaught Python error aborts the remainder of the sweep. (The
method's type-check preamble at line 481 references the undefined name
`TraceBuff` — the import is `TraceBuffer` — so every real call would raise
NameError before the loop, and the module cannot even be imported because
the half-written `process_window` has an empty `elif` suite at line 243;
what is modelled here is the loop text of lines 484-601.) -/
def processWindowsGo (cfg : WindowConfig) :
    List (Nat × Branch) → List (Nat × TrackerEntry) → Nat → Nat → SweepResult
  | [], tm, nnew, att => ⟨tm, nnew, att, none⟩
  | (k, branch) :: rest, tm, nnew, att =>
    let tm1 := trackerWithKey k tm
    let entry := (alookup k tm1).getD indexTemplate
    let r := processBranch cfg branch entry
    let tm2 := aupdate k r.entry tm1
    let nnew2 := nnew + cond r.emitted 1 0
    let att2 := att + cond r.attempted 1 0
    match r.error with
    | some e => ⟨tm2, nnew2, att2, some e⟩
    | none => processWindowsGo cfg rest tm2 nnew2 att2

/-- One full sweep of `_process_windows` starting from zero counters. -/
def processWindows (cfg : WindowConfig) (store : List (Nat × Branch))
    (tm : List (Nat × TrackerEntry)) : SweepResult :=
  processWindowsGo cfg store tm 0 0

/-- The pulse loop of `WindowWyrm.pulse` (source lines 197-200): run sweeps
while fuel remains, stopping after any sweep that raises or that yields zero
new windows; returns the tracker map and the number of sweeps performed.
Line 198 names `self.process_windows`, which the class does not define
(AttributeError on the first iteration); the legacy `WindWyrm.pulse`
(windwyrm.py lines 297-300) has the identical loop and correctly calls
`self._process_windows` — that loop is what is transcribed here. -/
def pulseGo (cfg : WindowConfig) (store : List (Nat × Branch)) :
    Nat → List (Nat × TrackerEntry) → List (Nat × TrackerEntry) × Nat
  | 0, tm => (tm, 0)
  | fuel + 1, tm =>
    match (processWindows cfg store tm).error with
    | some _ => ((processWindows cfg store tm).tracker, 1)
    | none =>
      if (processWindows cfg store tm).nnew = 0 then
        ((processWindows cfg store tm).tracker, 1)
      else
        ((pulseGo cfg store fuel (processWindows cfg store tm).tracker).1,
         (pulseGo cfg store fuel (processWindows cfg store tm).tracker).2 + 1)

/-- `WindowWyrm.pulse`: up to `max_pulse_size` sweeps of
`_process_windows`. -/
def windowPulse (cfg : WindowConfig) (maxPulseSize : Nat) (store : List (Nat × Branch))
    (tm : List (Nat × TrackerEntry)) : List (Nat × TrackerEntry) × Nat :=
  pulseGo cfg store maxPulseSize tm

/-! ### Concrete configurations and states used by the claim theorems -/

/-- The default `code_map` of `WindowWyrm.__init__`. -/
def cmapZNE : CodeMap := ⟨['Z', '3'], ['N', '1'], ['E', '2']⟩

/-- The default `completeness` thresholds of `WindowWyrm.__init__`. -/
def compZNE : Completeness := ⟨95/100, 8/10, 8/10⟩

/-- A `WindowWyrm` with defaults, advance 10 s, non-debug. -/
def cfgStd : WindowConfig := ⟨cmapZNE, compZNE, 10, false⟩

/-- The same configuration in debug mode. -/
def cfgDebug : WindowConfig := ⟨cmapZNE, compZNE, 10, true⟩

/-- The default legacy `WindWyrm` configuration (`Z_codes="Z3"`,
`N_codes="N1"`, `E_codes="E2"`, `z_valid_frac=0.95`, `h_valid_frac=0.8`). -/
def cfgLegacyStd : WWConfig := ⟨['Z', '3'], ['N', '1'], ['E', '2'], 95/100, 8/10⟩

/-- A branch whose vertical buffer was re-based to `[30, 40]`, fully valid. -/
def branchRunawayGap : Branch := [('Z', ⟨1000, 30, 40, 1⟩)]

/-- A tracker entry 30 s (three advances of `cfgStd`) behind that data
start. -/
def entryBehindData : TrackerEntry := ⟨none, some 0, some 0⟩

/-- A branch with a fully valid vertical buffer spanning `[0, 100]`. -/
def branchFreshData : Branch := [('Z', ⟨1000, 0, 100, 1⟩)]

/-- A branch whose vertical buffer spans `[0, 10]` with no valid data in the
candidate window. -/
def branchShortData : Branch := [('Z', ⟨1000, 0, 10, 0⟩)]

/-- A tracker entry 5 s past the data end of `branchShortData` (gap under
two advances of `cfgStd`). -/
def entrySmallLead : TrackerEntry := ⟨none, some 15, some 0⟩

/-- A tracker entry 20 s (two advances of `cfgStd`) past the data end of
`branchShortData`: the runaway-tracking case. -/
def entryBigLead : TrackerEntry := ⟨none, some 30, some 0⟩

/-- A branch with fully valid vertical (`'Z'`) and east (`'E'`) buffers. -/
def branchZE : Branch := [('Z', ⟨6000, 0, 60, 1⟩), ('E', ⟨6000, 0, 60, 1⟩)]

/-- A store of two instruments, both with fresh valid vertical data. -/
def storeTwo : List (Nat × Branch) := [(1, branchFreshData), (2, branchFreshData)]

/-- A branch whose only vertical buffer scores 1/2, below the default 0.95
threshold. -/
def branchLowVertical : Branch := [('Z', ⟨100, 0, 10, 1/2⟩)]

/-- A seeded tracker entry inside the data span of `branchLowVertical`. -/
def entrySeeded : TrackerEntry := ⟨none, some 3, some 0⟩

/-- A seeded tracker entry 2 s past the data end of `branchShortData`. -/
def entryTinyLead : TrackerEntry := ⟨none, some 12, some 4⟩

/-! ### Helper lemmas -/

/-- Closed form of the base pulse loop: starting at iteration `iterno`, the
loop processes `min fuel (min input.length (measure - iterno))` items. -/
theorem wyrmPulseGo_spec (measure : Nat) :
    ∀ (fuel iterno : Nat) (input output : List Nat) (nproc : Nat),
      wyrmPulseGo measure fuel iterno input output nproc =
        (input.drop (min fuel (min input.length (measure - iterno))),
         output ++ input.take (min fuel (min input.length (measure - iterno))),
         nproc + min fuel (min input.length (measure - iterno))) := by
  intro fuel
  induction fuel with
  | zero =>
    intro iterno input output nproc
    simp [wyrmPulseGo]
  | succ n ih =>
    intro iterno input output nproc
    match input with
    | [] => simp [wyrmPulseGo]
    | obj :: rest =>
      by_cases h : iterno + 1 ≤ measure
      · have hcond : 0 < (obj :: rest).length ∧ iterno + 1 ≤ measure :=
          ⟨by simp, h⟩
        rw [wyrmPulseGo, if_pos hcond, ih]
        have h2 : min (n + 1) (min (obj :: rest).length (measure - iterno))
            = min n (min rest.length (measure - (iterno + 1))) + 1 := by
          simp only [List.length_cons]
          omega
        rw [h2]
        simp only [List.drop_succ_cons, List.take_succ_cons, List.append_assoc,
          List.singleton_append, Prod.mk.injEq, true_and]
        omega
      · have hcond : ¬ (0 < (obj :: rest).length ∧ iterno + 1 ≤ measure) := by
          intro hc; exact h hc.2
        rw [wyrmPulseGo, if_neg hcond]
        have hz : measure - iterno = 0 := by omega
        simp [hz]

/-! ### Claim theorems -/

/-- Claim C10: for every deque given as input, the base `Wyrm.pulse` pops
elements from the left one at a time, appends each unit-process result to
`self.output` in the same order, processes exactly
`min(max_pulse_size, len(input))` elements, and returns that count as
`nproc` alongside `self.output`. -/
theorem c10_base_pulse (maxPulseSize : Nat) (input output0 : List Nat) :
    wyrmPulse maxPulseSize input output0 =
      (input.drop (min maxPulseSize input.length),
       output0 ++ input.take (min maxPulseSize input.length),
       min maxPulseSize input.length) := by
  unfold wyrmPulse
  rw [wyrmPulseGo_spec]
  simp

/-- Claim C5: an entry untouched for exactly `max_staleness` consecutive
pulses is supposed to be removed (all queues empty) or have its oldest
segment popped. In the source no such eviction can ever run: the staleness
counter can never advance, because the very first untouched pulse for an
entry below the ceiling hits the tuple item assignment at io.py line 366
and raises `TypeError` (first conjunct, default `max_staleness = 300`,
entry at counter 0), so the ceiling is unreachable. Even granting an entry
already at the ceiling, removing it when its queue is empty raises
RuntimeError from `queue_dict.pop(_k)` during the `keys()` iteration
(second conjunct — the entry is gone but the pulse aborts), and only the
non-empty pop branch completes, popping the oldest segment and leaving the
counter in place (third conjunct). -/
theorem c5_eviction_never_runs :
    updateStaleness 300 [] [(7, ⟨[], 0⟩)] = ([(7, ⟨[], 0⟩)], some PyErr.typeError) ∧
    updateStaleness 1 [] [(7, ⟨[], 1⟩)] = ([], some PyErr.runtimeError) ∧
    updateStaleness 1 [] [(7, ⟨[5], 1⟩)] = ([(7, ⟨[], 1⟩)], none) := by
  refine ⟨by decide, by decide, by decide⟩

/-- Claim C6: the staleness counter is supposed to reset to 0 whenever the
entry receives new data and to increment by exactly 1 per untouched pulse —
which is what the class docstring (io.py lines 168-173) says. Both writes
are item assignments into tuple entries: the reset at line 337 raises
`TypeError` after the deque append, leaving the counter at 1 (first
conjunct), and the increment at line 366 raises `TypeError`, leaving the
counter at 0 (second conjunct). The counter can never change, and each
crash aborts the pulse. -/
theorem c6_counter_frozen :
    addMsgToQueueDict [(7, ⟨[5], 1⟩)] 7 9 = ([(7, ⟨[9, 5], 1⟩)], some PyErr.typeError) ∧
    updateStaleness 300 [] [(7, ⟨[5], 0⟩)] = ([(7, ⟨[5], 0⟩)], some PyErr.typeError) := by
  refine ⟨by decide, by decide⟩

/-- A sweep makes at most one window-extraction attempt per store branch. -/
theorem processWindowsGo_attempts (cfg : WindowConfig) :
    ∀ (store : List (Nat × Branch)) (tm : List (Nat × TrackerEntry)) (nnew att : Nat),
      (processWindowsGo cfg store tm nnew att).attempts ≤ att + store.length := by
  intro store
  induction store with
  | nil => intro tm nnew att; simp [processWindowsGo]
  | cons p rest ih =>
    intro tm nnew att
    obtain ⟨k, branch⟩ := p
    simp only [processWindowsGo, List.length_cons]
    generalize processBranch cfg branch ((alookup k (trackerWithKey k tm)).getD indexTemplate) = r
    cases herr : r.error with
    | some e =>
      simp only [herr]
      cases hA : r.attempted <;> simp
    | none =>
      simp only [herr]
      calc (processWindowsGo cfg rest (aupdate k r.entry (trackerWithKey k tm))
              (nnew + cond r.emitted 1 0) (att + cond r.attempted 1 0)).attempts
          ≤ (att + cond r.attempted 1 0) + rest.length := ih _ _ _
        _ ≤ att + (rest.length + 1) := by
            cases r.attempted <;> simp only [Bool.cond_false, Bool.cond_true] <;> omega


/-- The pulse loop never runs more sweeps than its fuel. -/
theorem pulseGo_sweeps_le (cfg : WindowConfig) (store : List (Nat × Branch)) :
    ∀ (fuel : Nat) (tm : List (Nat × TrackerEntry)),
      (pulseGo cfg store fuel tm).2 ≤ fuel := by
  intro fuel
  induction fuel with
  | zero => intro tm; simp [pulseGo]
  | succ n ih =>
    intro tm
    rw [pulseGo]
    cases herr : (processWindows cfg store tm).error with
    | some e => simp
    | none =>
      simp only []
      by_cases hz : (processWindows cfg store tm).nnew = 0
      · rw [if_pos hz]; simp
      · rw [if_neg hz]
        simpa using Nat.succ_le_succ (ih (processWindows cfg store tm).tracker)

/-- As soon as a sweep yields zero new windows, the pulse loop stops after
that sweep. -/
theorem pulseGo_early_exit (cfg : WindowConfig) (store : List (Nat × Branch))
    (tm : List (Nat × TrackerEntry)) (n : Nat)
    (hz : (processWindows cfg store tm).nnew = 0) :
    pulseGo cfg store (n + 1) tm = ((processWindows cfg store tm).tracker, 1) := by
  rw [pulseGo]
  cases herr : (processWindows cfg store tm).error with
  | some e => simp
  | none => simp [hz]

/-- Claim C1: the large-gap branch of `_process_windows` is supposed to
compare the gap with the buffer retention span and jump the tracker by
`floor(gap / advance_seconds)` advances. Evaluating the code on a tracker
entry 30 s (three advances) behind the re-based vertical data start shows
the sweep instead raises `TypeError`: the comparison at source line 561 uses
`_data_max_length`, which is `None` (its assignment, line 524, is commented
out). No jump ever happens. -/
theorem c1_gap_skip_none_compare :
    processBranch cfgStd branchRunawayGap entryBehindData =
      ⟨entryBehindData, false, false, some PyErr.typeError⟩ := by
  norm_num [processBranch, seedEntry, findZBuff, branchGet, evalGap, dataMaxLength,
    attemptWindow, branch2instrumentwindow, scanBranch, cfgStd, cmapZNE, compZNE,
    branchRunawayGap, entryBehindData]

/-- Claim C2: on a successful emission the tracker is supposed to advance
`next_starttime` by `advance_seconds` and `next_index` by 1. Evaluating the
code on the very first window attempt of a fresh instrument with a fully
valid vertical buffer shows the sweep raises `KeyError` at the attempt: the
entry was created from `_index_template`, which has no `next_index` key, so
no emission ever completes and no index is ever incremented. -/
theorem c2_emission_key_missing :
    processBranch cfgStd branchFreshData indexTemplate =
      ⟨⟨none, some 0, none⟩, false, true, some PyErr.keyError⟩ := by
  norm_num [processBranch, seedEntry, findZBuff, branchGet, evalGap, dataMaxLength,
    attemptWindow, branch2instrumentwindow, scanBranch, cfgStd, cmapZNE, compZNE,
    branchFreshData, indexTemplate]

/-- Claim C3 counterexample: a tracker entry 5 s past the data end (a gap
smaller than two advances of 10 s) does not make the sweep wait: the gap
branch `pass`es (the code comment reads "Proceed as normal") and falls
through to the window-extraction attempt (`attempted = true`), which then
raises AttributeError inside the builder rather than deferring quietly —
refuting "makes no window-extraction attempt for that instrument in that
sweep". -/
theorem c3_wait_counterexample :
    processBranchActual cfgStd branchShortData entrySmallLead =
      ⟨entrySmallLead, false, true, some PyErr.attributeError⟩ := by
  norm_num [processBranchActual, seedEntry, findZBuff, branchGet, evalGap, dataMaxLength,
    attemptWindowActual, cfgStd, cmapZNE, compZNE, branchShortData, entrySmallLead]

/-- Claim C3 (amended): for every instrument whose tracker `next_starttime`
is past the end of the available vertical data by less than two advances,
the sweep makes no tracker state change of its own, but it does not wait:
it falls through to the window-extraction attempt, which in the current
source raises — `KeyError` for an ordinary template entry whose
`next_index` key is absent, `AttributeError` inside the builder for an
entry that does carry an index — and the exception aborts the pulse. Stated
for an arbitrary `next_index` field, so every tracker entry the program can
hold is covered. -/
theorem c3_wait_amended (cfg : WindowConfig) (branch : Branch)
    (ls : Option ℚ) (ts : ℚ) (ni : Option ℤ) (b : TraceBuff)
    (hb : findZBuff cfg.codeMap.z branch = some b)
    (hgt : b.endtime < ts)
    (hlt : ts - b.endtime < 2 * cfg.advanceSec) :
    processBranchActual cfg branch ⟨ls, some ts, ni⟩ =
      ⟨⟨ls, some ts, ni⟩, false, true,
       some (match ni with
         | none => PyErr.keyError
         | some _ => PyErr.attributeError)⟩ := by
  have hgap : evalGap cfg ts b.starttime b.endtime = GapAction.proceed := by
    unfold evalGap
    have h1 : ¬ (b.starttime ≤ ts ∧ ts < b.endtime) :=
      fun hc => absurd hc.2 (not_lt.mpr hgt.le)
    rw [if_neg h1, if_pos hgt, if_pos hlt]
  unfold processBranchActual seedEntry
  simp only [hb, hgap]
  cases ni <;> rfl

/-- Claim C3 witness: the amended behaviour at a concrete gap of 2 s for an
entry carrying an index. -/
theorem c3_wait_amended_witness :
    processBranchActual cfgStd branchShortData entryTinyLead =
      ⟨entryTinyLead, false, true, some PyErr.attributeError⟩ :=
  c3_wait_amended cfgStd branchShortData none 12 (some 4) ⟨1000, 0, 10, 0⟩
    (by norm_num [findZBuff, branchGet, cfgStd, cmapZNE, branchShortData])
    (by norm_num)
    (by norm_num [cfgStd])

/-- Claim C4: a tracker entry 20 s (two advances) past the data end is the
runaway-tracking case. In non-debug mode the code at source line 546
constructs `RuntimeError(...)` without `raise`, so no error is raised, the
instrument is not skipped, and the sweep proceeds to the window attempt
(`attempted = true`, `error = none`); in debug mode `breakpoint()` halts
execution. -/
theorem c4_runaway_not_raised :
    processBranch cfgStd branchShortData entryBigLead =
      ⟨entryBigLead, false, true, none⟩ ∧
    processBranch cfgDebug branchShortData entryBigLead =
      ⟨entryBigLead, false, false, some PyErr.debugHalt⟩ := by
  constructor <;>
  norm_num [processBranch, seedEntry, findZBuff, branchGet, evalGap, dataMaxLength,
    attemptWindow, branch2instrumentwindow, scanBranch, cfgStd, cfgDebug, cmapZNE,
    compZNE, branchShortData, entryBigLead]

/-- Claim C7: with the tracker seeded inside the data span of a branch
whose only vertical channel scores 1/2 against the default 0.95 threshold,
the window-assembly attempt is supposed to return `None`, queue nothing,
leave the tracker unchanged and retry next pulse. Evaluating the faithful
model shows the attempt instead raises: `AttributeError` for an entry
carrying an index (the builder dereferences the uninitialized
`self.windowing_attr` before any scoring, lines 355/322/377 — so the
below-threshold score is never even consulted), and `KeyError` for the
ordinary template entry whose `next_index` key is absent. The tracker entry
is indeed left unchanged, but the exception aborts the pulse: nothing is
silently retried. -/
theorem c7_attempt_raises :
    processBranchActual cfgStd branchLowVertical entrySeeded =
      ⟨entrySeeded, false, true, some PyErr.attributeError⟩ ∧
    processBranchActual cfgStd branchLowVertical ⟨none, some 3, none⟩ =
      ⟨⟨none, some 3, none⟩, false, true, some PyErr.keyError⟩ := by
  constructor <;>
  norm_num [processBranchActual, seedEntry, findZBuff, branchGet, evalGap, dataMaxLength,
    attemptWindowActual, cfgStd, cmapZNE, compZNE, branchLowVertical, entrySeeded]

/-- Claim C8 counterexample: a sweep over a store of two tracked instruments
with fresh valid vertical data makes only one window-extraction attempt: the
first attempt raises `KeyError` (missing `next_index`), aborting the sweep,
so the second tracked instrument gets no attempt — refuting "each sweep
attempting one window extraction per tracked instrument". -/
theorem c8_sweep_counterexample :
    (processWindows cfgStd storeTwo []).attempts = 1 ∧
    storeTwo.length = 2 ∧
    (processWindows cfgStd storeTwo []).error = some PyErr.keyError := by
  refine ⟨?_, by decide, ?_⟩ <;>
  norm_num [processWindows, processWindowsGo, trackerWithKey, alookup, aupdate,
    processBranch, seedEntry, findZBuff, branchGet, evalGap, dataMaxLength,
    attemptWindow, branch2instrumentwindow, scanBranch, cfgStd, cmapZNE, compZNE,
    storeTwo, branchFreshData, indexTemplate]

/-- Claim C8 (amended): `pulse` performs at most `max_pulse_size` sweeps and
terminates early as soon as a sweep yields zero new windows; each sweep
makes at most one window-extraction attempt per tracked instrument (an
uncaught per-instrument error aborts the sweep, so later instruments may get
none). Hence `pulse` always terminates within `max_pulse_size` sweeps
regardless of backlog size. -/
theorem c8_pulse_amended (cfg : WindowConfig) (store : List (Nat × Branch))
    (tm : List (Nat × TrackerEntry)) (maxPulseSize : Nat) :
    (windowPulse cfg maxPulseSize store tm).2 ≤ maxPulseSize ∧
    ((processWindows cfg store tm).nnew = 0 → 1 ≤ maxPulseSize →
      windowPulse cfg maxPulseSize store tm = ((processWindows cfg store tm).tracker, 1)) ∧
    (processWindows cfg store tm).attempts ≤ store.length := by
  refine ⟨pulseGo_sweeps_le cfg store maxPulseSize tm, ?_, ?_⟩
  · intro hz hfuel
    obtain ⟨n, rfl⟩ : ∃ n, maxPulseSize = n + 1 := ⟨maxPulseSize - 1, by omega⟩
    exact pulseGo_early_exit cfg store tm n hz
  · simpa [processWindows] using processWindowsGo_attempts cfg store tm 0 0

/-- Claim C8 witness: the amended statement at an empty store with fuel 3 —
the first sweep yields zero windows and the pulse stops after one sweep. -/
theorem c8_pulse_amended_witness :
    (windowPulse cfgStd 3 [] []).2 ≤ 3 ∧
    windowPulse cfgStd 3 [] [] = ([], 1) ∧
    (processWindows cfgStd [] []).attempts ≤ 0 :=
  ⟨(c8_pulse_amended cfgStd [] [] 3).1,
   by exact (c8_pulse_amended cfgStd [] [] 3).2.1 (by decide) (by decide),
   (c8_pulse_amended cfgStd [] [] 3).2.2⟩

/-- Claim C9: on a branch with fully valid vertical (`'Z'`) and east (`'E'`)
channels, the legacy `WindWyrm._branch2instwindow` stores the east trace
under the window's N slot (source `windwyrm.py` line 209 updates `"N"` in
the `E_codes` branch) and leaves the E slot empty, while the reimplemented
`WindowWyrm._branch2instrumentwindow` stores it under the E slot: the two
builders do not assign component slots equivalently. -/
theorem c9_slot_divergence :
    branch2instwindow cfgLegacyStd branchZE =
      some ⟨some ⟨'Z'⟩, some ⟨'E'⟩, none⟩ ∧
    branch2instrumentwindow cfgStd branchZE =
      some ⟨some ⟨'Z'⟩, none, some ⟨'E'⟩⟩ := by
  constructor <;>
  norm_num +decide [branch2instwindow, scanBranchLegacy, branch2instrumentwindow,
    scanBranch, cfgLegacyStd, cfgStd, cmapZNE, compZNE, branchZE]
